import Mathlib

/-!
Shallow embedding of the Virtual-Bio-Lab repository
(`crewai_agents/virtual_bio_lab.py`, `crewai_agents/example_experiments.py`,
`crewai_agents/config.py`).

The repository is a thin scripting layer over an external agent-execution
framework.  The embedding models:

* the five `Agent` definitions (role, goal, backstory, tool list);
* `create_experiment_tasks`, `create_virtual_lab_crew`;
* `run_virtual_experiment`, whose Python return value is a dict — modelled
  here as an association list `List (String × String)` so that the exact key
  set and key order of the success and failure records are visible;
* the external execution service (`Crew.kickoff`, which either returns a
  result or raises) as a parameter `svc : Crew → Except String String`;
  an exception is modelled by its stringified message, so Python's `str(e)`
  is the identity on the model;
* the system clock as explicit parameters: `now` stands for the value of
  `datetime.now().isoformat()` and `stamp` for
  `datetime.now().strftime("%Y%m%d_%H%M%S")` at the corresponding call
  sites;
* file writes (`open(...)` + `json.dump`) as the list of file names
  written, and `print` calls that the claims mention as the list of printed
  lines (progress banners that no claim mentions are not tracked);
* the `VirtualLabExperiments` catalog of `example_experiments.py` and its
  `run_experiment`, `run_all_experiments` and `list_experiments` methods;
* the `LabConfig` dataclass of `config.py`.

String literals are transcribed byte-for-byte from the Python sources
(Python triple-quoted strings keep their indentation; an apostrophe is
written `\x27`).
-/

namespace VirtualBioLab

/-- Agent record: the fields of a `crewai` `Agent` call that belong to this
repository (role, goal, backstory, tool list).  The `llm` argument selects
an external backend and carries no behavior of this code. -/
structure Agent where
  role : String
  goal : String
  backstory : String
  tools : List String
deriving DecidableEq, Repr

/-- Task record: the fields of a `crewai` `Task` call made by
`create_experiment_tasks` (description, agent, expected_output). -/
structure Task where
  description : String
  agent : Agent
  expected_output : String
deriving DecidableEq, Repr

/-- Process kind passed to the `Crew` constructor; the source only ever uses
`Process.sequential`. -/
inductive Process where
  | sequential
deriving DecidableEq, Repr

/-- Crew record: the `Crew(agents=…, tasks=…, process=…)` call of
`create_virtual_lab_crew`. -/
structure Crew where
  agents : List Agent
  tasks : List Task
  process : Process

/-- Agent `protocol_reader` (virtual_bio_lab.py, lines 13-24). -/
def protocol_reader : Agent :=
  ⟨"Protocol Reader",
   "Read and understand experimental protocols, extract key parameters and steps",
   "You are an experienced lab technician who specializes in reading and \n" ++
   "    interpreting biological experiment protocols. You can break down complex procedures \n" ++
   "    into clear, actionable steps and identify all necessary materials and conditions.",
   ["FileReadTool"]⟩

/-- Agent `virtual_experimenter` (virtual_bio_lab.py, lines 27-38). -/
def virtual_experimenter : Agent :=
  ⟨"Virtual Experimenter",
   "Simulate biological experiments using historical data and established patterns",
   "You are a skilled researcher who can predict experimental outcomes \n" ++
   "    based on existing scientific literature and data. You understand how different \n" ++
   "    variables affect biological systems and can generate realistic experimental results.",
   ["SerperDevTool"]⟩

/-- Agent `data_collector` (virtual_bio_lab.py, lines 41-51). -/
def data_collector : Agent :=
  ⟨"Data Collector",
   "Collect, organize, and structure experimental data in a systematic way",
   "You are a meticulous data manager who ensures all experimental \n" ++
   "    observations are properly recorded, organized, and formatted for analysis. \n" ++
   "    You maintain data integrity and follow scientific data management standards.",
   []⟩

/-- Agent `data_analyst` (virtual_bio_lab.py, lines 54-64). -/
def data_analyst : Agent :=
  ⟨"Data Analyst",
   "Analyze experimental data, perform statistical tests, and create meaningful visualizations",
   "You are a bioinformatician with expertise in statistical analysis \n" ++
   "    and data visualization. You can identify patterns, calculate significance, \n" ++
   "    and present findings through clear graphs and charts.",
   []⟩

/-- Agent `report_writer` (virtual_bio_lab.py, lines 67-77). -/
def report_writer : Agent :=
  ⟨"Report Writer",
   "Write comprehensive experiment reports and suggest future research directions",
   "You are a scientific writer who can synthesize experimental results \n" ++
   "    into clear, professional reports. You understand scientific methodology and \n" ++
   "    can suggest logical next steps based on current findings.",
   []⟩

/-- Constant part of the `protocol_task` f-string before the interpolated
`experiment_description` (virtual_bio_lab.py, lines 84-85). -/
def protocol_task_pre : String :=
  "\n" ++
  "        Read and analyze the following experiment: "

/-- Constant part of the `protocol_task` f-string after the interpolated
`experiment_description` (virtual_bio_lab.py, lines 85-96). -/
def protocol_task_post : String :=
  "\n" ++
  "        \n" ++
  "        Extract and organize:\n" ++
  "        - Objective of the experiment\n" ++
  "        - Required materials and reagents\n" ++
  "        - Step-by-step procedure\n" ++
  "        - Expected timeline\n" ++
  "        - Critical parameters (temperature, pH, concentrations, etc.)\n" ++
  "        - Safety considerations\n" ++
  "        \n" ++
  "        Present this information in a structured format that other agents can easily follow.\n" ++
  "        "

/-- Description of `experiment_task` (virtual_bio_lab.py, lines 103-113): a
plain string, no interpolation. -/
def experiment_task_description : String :=
  "\n" ++
  "        Based on the protocol analysis, simulate running this biological experiment:\n" ++
  "        \n" ++
  "        - Generate realistic data points based on the experimental conditions\n" ++
  "        - Consider biological variability and potential experimental errors\n" ++
  "        - Include appropriate controls and replicates\n" ++
  "        - Account for time-dependent changes if applicable\n" ++
  "        - Generate raw data in a format suitable for analysis\n" ++
  "        \n" ++
  "        Use your knowledge of biological systems to create plausible results.\n" ++
  "        "

/-- Description of `collection_task` (virtual_bio_lab.py, lines 120-130). -/
def collection_task_description : String :=
  "\n" ++
  "        Take the simulated experimental data and organize it systematically:\n" ++
  "        \n" ++
  "        - Structure data in appropriate formats (tables, matrices)\n" ++
  "        - Add metadata (timestamps, conditions, sample IDs)\n" ++
  "        - Ensure data quality and consistency\n" ++
  "        - Create data dictionaries explaining variables\n" ++
  "        - Organize files in a logical directory structure\n" ++
  "        \n" ++
  "        Prepare the data for statistical analysis.\n" ++
  "        "

/-- Description of `analysis_task` (virtual_bio_lab.py, lines 137-148). -/
def analysis_task_description : String :=
  "\n" ++
  "        Perform comprehensive analysis of the experimental data:\n" ++
  "        \n" ++
  "        - Calculate descriptive statistics\n" ++
  "        - Perform appropriate statistical tests\n" ++
  "        - Identify significant patterns or differences\n" ++
  "        - Create informative visualizations (bar charts, line graphs, heatmaps)\n" ++
  "        - Generate figures with proper labels and legends\n" ++
  "        - Assess data quality and potential outliers\n" ++
  "        \n" ++
  "        Present findings in a clear, scientific manner.\n" ++
  "        "

/-- Description of `report_task` (virtual_bio_lab.py, lines 155-167). -/
def report_task_description : String :=
  "\n" ++
  "        Create a comprehensive experiment report including:\n" ++
  "        \n" ++
  "        - Executive summary of findings\n" ++
  "        - Methods section (based on protocol)\n" ++
  "        - Results section (incorporating analysis and figures)\n" ++
  "        - Discussion of biological significance\n" ++
  "        - Limitations of the virtual experiment\n" ++
  "        - Specific recommendations for next experiments\n" ++
  "        - Suggestions for protocol improvements\n" ++
  "        \n" ++
  "        Write in standard scientific report format.\n" ++
  "        "

/-- Embedding of `create_experiment_tasks(experiment_description)`
(virtual_bio_lab.py, lines 80-172): builds the five `Task` records and
returns them as a list in source order.  The unused `protocol_file=None`
parameter is dropped.  Only the first description is an f-string embedding
`experiment_description`; the other four are string constants. -/
def create_experiment_tasks (experiment_description : String) : List Task :=
  [⟨protocol_task_pre ++ experiment_description ++ protocol_task_post,
    protocol_reader,
    "A structured breakdown of the experimental protocol with all key details organized"⟩,
   ⟨experiment_task_description,
    virtual_experimenter,
    "Simulated experimental data with realistic biological measurements and observations"⟩,
   ⟨collection_task_description,
    data_collector,
    "Well-organized dataset with proper structure, labels, and metadata"⟩,
   ⟨analysis_task_description,
    data_analyst,
    "Statistical analysis results with publication-quality figures and interpretation"⟩,
   ⟨report_task_description,
    report_writer,
    "Complete scientific report with conclusions and actionable next steps"⟩]

/-- Embedding of `create_virtual_lab_crew(experiment_description)`
(virtual_bio_lab.py, lines 175-184). -/
def create_virtual_lab_crew (experiment_description : String) : Crew :=
  ⟨[protocol_reader, virtual_experimenter, data_collector, data_analyst, report_writer],
   create_experiment_tasks experiment_description,
   Process.sequential⟩

/-- Python dict returned by `run_virtual_experiment`, as an association
list: key order is insertion order, exactly as written in the source. -/
abbrev RunResult := List (String × String)

/-- Embedding of `run_virtual_experiment(experiment_description)`
(virtual_bio_lab.py, lines 187-223).  `svc` models `lab_crew.kickoff()`:
it either returns a result string or raises an exception, modelled as
`Except.error` carrying the stringified message (`str(e)`).  `now` is the
value of `datetime.now().isoformat()` for this run.  The `try/except`
block becomes the `match`: a raise is caught here and never propagates. -/
def run_virtual_experiment (svc : Crew → Except String String)
    (now : String) (experiment_description : String) : RunResult :=
  match svc (create_virtual_lab_crew experiment_description) with
  | Except.ok result =>
    [("status", "success"),
     ("timestamp", now),
     ("experiment", experiment_description),
     ("results", result)]
  | Except.error e =>
    [("status", "failed"),
     ("error", e),
     ("timestamp", now)]

/-- Embedding of the `EXAMPLE_EXPERIMENTS` dict
(virtual_bio_lab.py, lines 226-244). -/
def EXAMPLE_EXPERIMENTS : List (String × String) :=
  [("protein_expression",
    "\n" ++
    "    Test the effect of different IPTG concentrations (0.1mM, 0.5mM, 1.0mM) on \n" ++
    "    recombinant protein expression in E. coli BL21(DE3) cells over 4 hours at 37°C.\n" ++
    "    Measure protein levels using SDS-PAGE and Western blot.\n" ++
    "    "),
   ("cell_viability",
    "\n" ++
    "    Evaluate the cytotoxicity of a new compound on HeLa cells using MTT assay.\n" ++
    "    Test concentrations: 1µM, 10µM, 50µM, 100µM, 500µM over 24 and 48 hours.\n" ++
    "    Include DMSO vehicle control.\n" ++
    "    "),
   ("enzyme_kinetics",
    "\n" ++
    "    Determine Km and Vmax values for β-galactosidase using ONPG as substrate.\n" ++
    "    Test substrate concentrations from 0.1 to 10 mM. Measure absorbance at 420nm \n" ++
    "    every 30 seconds for 10 minutes at 37°C, pH 7.0.\n" ++
    "    ")]

/-- Embedding of the `if __name__ == "__main__":` block
(virtual_bio_lab.py, lines 247-256): runs the `protein_expression` example
and then writes the results file unconditionally.  Returns the run result
(`none` would model a `KeyError` on the dict lookup, which cannot happen
for this key) and the list of files written.  `stamp` is the
`strftime("%Y%m%d_%H%M%S")` value at the write. -/
def main_block (svc : Crew → Except String String) (now stamp : String) :
    Option RunResult × List String :=
  match EXAMPLE_EXPERIMENTS.lookup "protein_expression" with
  | some experiment =>
    let results := run_virtual_experiment svc now experiment
    (some results, ["virtual_experiment_" ++ stamp ++ ".json"])
  | none => (none, [])

/-- Catalog method `drug_screening_experiment`
(example_experiments.py, lines 19-43): a zero-argument bound method
returning a string constant; modelled as a function from `Unit`. -/
def drug_screening_experiment : Unit → String := fun _ =>
  "\n" ++
  "        Screen potential anticancer compound XYZ-123 on HeLa cells:\n" ++
  "        \n" ++
  "        Experimental Design:\n" ++
  "        - Cell line: HeLa (cervical cancer)\n" ++
  "        - Compound concentrations: 0.1, 1, 10, 50, 100, 500 μM\n" ++
  "        - Controls: DMSO vehicle control, Doxorubicin positive control (10 μM)\n" ++
  "        - Assay: MTT viability assay\n" ++
  "        - Time points: 24h and 48h treatment\n" ++
  "        - Replicates: n=6 per condition\n" ++
  "        \n" ++
  "        Measurements:\n" ++
  "        - Cell viability percentage\n" ++
  "        - IC50 calculation\n" ++
  "        - Statistical analysis (ANOVA)\n" ++
  "        - Dose-response curves\n" ++
  "        \n" ++
  "        Expected deliverables:\n" ++
  "        - IC50 values at both time points\n" ++
  "        - Dose-response graphs\n" ++
  "        - Statistical significance testing\n" ++
  "        - Recommendations for follow-up concentrations\n" ++
  "        "

/-- Catalog method `protein_purification_experiment`
(example_experiments.py, lines 45-69). -/
def protein_purification_experiment : Unit → String := fun _ =>
  "\n" ++
  "        Purify His-tagged recombinant protein from E. coli:\n" ++
  "        \n" ++
  "        Experimental Steps:\n" ++
  "        1. Bacterial lysis (sonication buffer: 50mM Tris pH 7.5, 300mM NaCl)\n" ++
  "        2. Centrifugation (12,000g, 30min, 4°C)\n" ++
  "        3. Ni-NTA column purification\n" ++
  "        4. Wash steps (20mM imidazole)\n" ++
  "        5. Elution (250mM imidazole)\n" ++
  "        6. Buffer exchange (dialysis to PBS)\n" ++
  "        \n" ++
  "        Analysis:\n" ++
  "        - SDS-PAGE at each step\n" ++
  "        - Bradford assay for protein concentration\n" ++
  "        - Western blot confirmation\n" ++
  "        - Activity assay (if enzyme)\n" ++
  "        \n" ++
  "        Calculate:\n" ++
  "        - Protein yield at each step\n" ++
  "        - Purification fold\n" ++
  "        - Recovery percentage\n" ++
  "        - Purity assessment\n" ++
  "        "

/-- Catalog method `pcr_optimization_experiment`
(example_experiments.py, lines 71-93). -/
def pcr_optimization_experiment : Unit → String := fun _ =>
  "\n" ++
  "        Optimize PCR conditions for amplifying 1.2 kb gene fragment:\n" ++
  "        \n" ++
  "        Variables to test:\n" ++
  "        - Annealing temperatures: 50°C, 55°C, 60°C, 65°C\n" ++
  "        - MgCl2 concentrations: 1.5mM, 2.0mM, 2.5mM, 3.0mM\n" ++
  "        - Primer concentrations: 0.2μM, 0.5μM, 1.0μM\n" ++
  "        \n" ++
  "        PCR Protocol:\n" ++
  "        - Initial denaturation: 95°C, 5min\n" ++
  "        - 35 cycles: 95°C 30s, variable temp 30s, 72°C 90s\n" ++
  "        - Final extension: 72°C, 10min\n" ++
  "        \n" ++
  "        Analysis:\n" ++
  "        - Agarose gel electrophoresis (1% gel)\n" ++
  "        - Band intensity measurement\n" ++
  "        - Product size verification\n" ++
  "        - Optimization matrix analysis\n" ++
  "        \n" ++
  "        Output: Recommended optimal conditions\n" ++
  "        "

/-- Catalog method `cell_counting_experiment`
(example_experiments.py, lines 95-122). -/
def cell_counting_experiment : Unit → String := fun _ =>
  "\n" ++
  "        Monitor bacterial growth under different nutrient conditions:\n" ++
  "        \n" ++
  "        Media conditions:\n" ++
  "        - Rich media (LB broth)\n" ++
  "        - Minimal media (M9 + glucose)\n" ++
  "        - Minimal media + amino acids\n" ++
  "        - Minimal media + vitamins\n" ++
  "        - Nutrient-limited media\n" ++
  "        \n" ++
  "        Measurements:\n" ++
  "        - OD600 every 2 hours for 24 hours\n" ++
  "        - Viable cell counts (CFU/ml) at 8h, 16h, 24h\n" ++
  "        - pH measurements\n" ++
  "        \n" ++
  "        Calculations:\n" ++
  "        - Growth rates (doubling time)\n" ++
  "        - Maximum cell density\n" ++
  "        - Lag time analysis\n" ++
  "        - Statistical comparison between conditions\n" ++
  "        \n" ++
  "        Deliverables:\n" ++
  "        - Growth curves for each condition\n" ++
  "        - Growth parameter table\n" ++
  "        - Recommendations for optimal medium\n" ++
  "        "

/-- Catalog method `ph_optimization_experiment`
(example_experiments.py, lines 124-149). -/
def ph_optimization_experiment : Unit → String := fun _ =>
  "\n" ++
  "        Determine optimal pH for enzyme activity:\n" ++
  "        \n" ++
  "        Enzyme: β-galactosidase\n" ++
  "        pH range: 5.0, 5.5, 6.0, 6.5, 7.0, 7.5, 8.0, 8.5, 9.0\n" ++
  "        \n" ++
  "        Buffer systems:\n" ++
  "        - pH 5.0-6.0: Acetate buffer (50mM)\n" ++
  "        - pH 6.5-7.5: Phosphate buffer (50mM)\n" ++
  "        - pH 8.0-9.0: Tris buffer (50mM)\n" ++
  "        \n" ++
  "        Assay conditions:\n" ++
  "        - Substrate: ONPG (2mM)\n" ++
  "        - Enzyme concentration: 10 μg/ml\n" ++
  "        - Temperature: 37°C\n" ++
  "        - Reaction time: 10 minutes\n" ++
  "        - Detection: A420nm\n" ++
  "        \n" ++
  "        Analysis:\n" ++
  "        - Activity vs pH curve\n" ++
  "        - Optimal pH determination\n" ++
  "        - Buffer compatibility assessment\n" ++
  "        - Temperature stability at optimal pH\n" ++
  "        "

/-- Embedding of `self.experiment_library`
(example_experiments.py, lines 10-17): an insertion-ordered dict from
experiment name to zero-argument description generator, modelled as an
association list in source order. -/
def experiment_library : List (String × (Unit → String)) :=
  [("drug_screening", drug_screening_experiment),
   ("protein_purification", protein_purification_experiment),
   ("pcr_optimization", pcr_optimization_experiment),
   ("cell_counting", cell_counting_experiment),
   ("ph_optimization", ph_optimization_experiment)]

/-- Observable outcome of one `run_experiment` call: its return value, the
claim-relevant printed lines, and the files written. -/
structure RunExperimentOutcome where
  result : Option RunResult
  printed : List String
  files_written : List String
deriving DecidableEq

/-- Rendering of Python `list(self.experiment_library.keys())` inside an
f-string: bracketed, comma-separated, each key in single quotes. -/
def pyKeyListString (keys : List String) : String :=
  "[" ++ String.intercalate ", " (keys.map (fun k => "\x27" ++ k ++ "\x27")) ++ "]"

/-- Embedding of `VirtualLabExperiments.run_experiment(experiment_name,
save_results=True)` (example_experiments.py, lines 151-174).  The
`experiment_name not in self.experiment_library` test becomes the `match`
on the association-list lookup.  In the not-found branch the two `print`
calls are recorded and `None` is returned without dispatching a run; in
the found branch the generator is invoked, `run_virtual_experiment` is
dispatched, and a results file `./results/<name>_<stamp>.json` is written
exactly when `save_results` holds and `results["status"] == "success"`. -/
def run_experiment (svc : Crew → Except String String) (now stamp : String)
    (experiment_name : String) (save_results : Bool) : RunExperimentOutcome :=
  match experiment_library.lookup experiment_name with
  | none =>
    ⟨none,
     ["❌ Experiment \x27" ++ experiment_name ++ "\x27 not found!",
      "Available experiments: " ++ pyKeyListString (experiment_library.map Prod.fst)],
     []⟩
  | some generator =>
    let experiment_description := generator ()
    let results := run_virtual_experiment svc now experiment_description
    let files :=
      if save_results && (results.lookup "status" == some "success")
      then ["./results/" ++ experiment_name ++ "_" ++ stamp ++ ".json"]
      else []
    ⟨some results, [], files⟩

/-- Embedding of `VirtualLabExperiments.run_all_experiments`
(example_experiments.py, lines 188-204): iterates over the catalog keys in
order, calls `run_experiment(name, save_results=True)` for each, and
stores each outcome in the results map (modelled as an ordered list of
pairs).  The status check after each run only prints and never aborts the
loop. -/
def run_all_experiments (svc : Crew → Except String String)
    (now stamp : String) : List (String × Option RunResult) :=
  (experiment_library.map Prod.fst).map fun exp_name =>
    (exp_name, (run_experiment svc now stamp exp_name true).result)

/-- Python `str.split` with separator `"\n"`, on the character list of the
string: never collapses separators and yields `[""]` on the empty
string, exactly like `"…".split("\n")`. -/
def pySplitNl : List Char → List (List Char)
  | [] => [[]]
  | c :: cs =>
    if c = '\n' then [] :: pySplitNl cs
    else
      match pySplitNl cs with
      | [] => [[c]]
      | l :: ls => (c :: l) :: ls

/-- The expression `func().split('\n')[1].strip()` of `list_experiments`
(example_experiments.py, line 184), as an `Option`: `none` models an
`IndexError` on the `[1]` subscript. -/
def secondLineStripped (s : String) : Option String :=
  ((pySplitNl s.data).get? 1).map (fun l => (String.mk l).trim)

/-- Embedding of the data accesses of
`VirtualLabExperiments.list_experiments` (example_experiments.py, lines
176-186): for each catalog entry in order, the name and the stripped
second line of the freshly generated description that the method prints.
The surrounding banner and numbering prints are pure formatting. -/
def list_experiments_output : List (String × Option String) :=
  experiment_library.map (fun p => (p.1, secondLineStripped (p.2 ())))

/-- Embedding of the `LabConfig` dataclass (config.py, lines 7-28).  The two
API-key fields read the environment, so the constructor below takes them
as parameters; `DEFAULT_TEMPERATURE` (Python float 25.0) is modelled as a
rational. -/
structure LabConfig where
  GOOGLE_API_KEY : String
  SERPER_API_KEY : String
  LAB_NAME : String
  MAX_EXPERIMENT_TIME : Nat
  DEFAULT_TEMPERATURE : Rat
  DATA_DIR : String
  RESULTS_DIR : String
  PROTOCOLS_DIR : String
  AGENT_VERBOSE : Bool
  USE_MEMORY : Bool
  MAX_ITERATIONS : Nat

/-- The default `LabConfig()` instance, given the two environment values
(config.py defaults: `os.getenv(..., "")`). -/
def labConfig_default (google_api_key serper_api_key : String) : LabConfig :=
  ⟨google_api_key, serper_api_key, "Virtual BioLab AI", 3600, 25,
   "./experiment_data", "./results", "./protocols", true, true, 5⟩

/-- The runner with the ambient module configuration made explicit: the
body of `run_virtual_experiment` (virtual_bio_lab.py, lines 187-223)
contains no reference to `LabConfig`, so the configuration argument is
simply unused.  This definition exists to state that independence. -/
def run_virtual_experiment_under_config (_cfg : LabConfig)
    (svc : Crew → Except String String) (now experiment_description : String) :
    RunResult :=
  run_virtual_experiment svc now experiment_description

/-- Helper: an association-list lookup misses exactly when the key is not
among the stored keys (specialised to the lawful `BEq` case). -/
theorem lookup_none_of_not_mem_keys {α β : Type} [BEq α] [LawfulBEq α]
    (l : List (α × β)) (a : α) (h : a ∉ l.map Prod.fst) : l.lookup a = none := by
  induction l with
  | nil => rfl
  | cons p t ih =>
    obtain ⟨k, b⟩ := p
    have h1 : a ≠ k := by
      intro e
      exact h (by simp [e])
    have h2 : a ∉ t.map Prod.fst := by
      intro m
      exact h (by simp [m])
    have hne : (a == k) = false := beq_eq_false_iff_ne.mpr h1
    simp [List.lookup, hne, ih h2]

/-- C1: `create_experiment_tasks` returns exactly five stages whose agent
roles are, in order, the protocol reader, virtual experimenter, data
collector, data analyst and report writer; the first stage's description
is the fixed prefix and suffix around the experiment description verbatim,
and the other four descriptions are the fixed constants, independent of
the description. -/
theorem create_experiment_tasks_five_stages_first_embeds (d : String) :
    (create_experiment_tasks d).length = 5 ∧
    (create_experiment_tasks d).map (fun t => t.agent.role) =
      ["Protocol Reader", "Virtual Experimenter", "Data Collector",
       "Data Analyst", "Report Writer"] ∧
    (create_experiment_tasks d).map Task.description =
      [protocol_task_pre ++ d ++ protocol_task_post,
       experiment_task_description,
       collection_task_description,
       analysis_task_description,
       report_task_description] :=
  ⟨rfl, rfl, rfl⟩

/-- C2: whenever the execution service raises, `run_virtual_experiment`
catches the exception (it always returns a record, never propagating) and
returns the failure record whose error entry is the stringified message;
with message "rate limited" the record has status "failed" and error
"rate limited". -/
theorem run_virtual_experiment_catches_failure
    (svc : Crew → Except String String) (now d e : String)
    (h : svc (create_virtual_lab_crew d) = Except.error e) :
    run_virtual_experiment svc now d =
      [("status", "failed"), ("error", e), ("timestamp", now)] := by
  unfold run_virtual_experiment
  rw [h]

/-- Witness for C2: a service raising "rate limited" yields the failure
record with error "rate limited". -/
theorem run_virtual_experiment_catches_failure_witness :
    run_virtual_experiment (fun _ => Except.error "rate limited")
        "2025-01-01T00:00:00" "demo experiment" =
      [("status", "failed"), ("error", "rate limited"),
       ("timestamp", "2025-01-01T00:00:00")] :=
  run_virtual_experiment_catches_failure _ _ _ _ rfl

/-- C3 counterexample: on a failing run the returned record has no
"experiment" entry at all, so the claim that every run's record carries
the original experiment description is false at this input. -/
theorem run_result_failure_lacks_experiment_cex :
    (run_virtual_experiment (fun _ => Except.error "boom")
        "2025-01-01T00:00:00" "protein expression test").lookup "experiment" =
      none := by
  rfl

/-- C3 amended: a successful run's record holds status "success", the
clock's ISO-format timestamp, the original experiment description
unchanged and the results entry; a failing run's record holds status
"failed", the error text and the timestamp, and omits the experiment and
results entries. -/
theorem run_virtual_experiment_record_contents
    (svc : Crew → Except String String) (now d r e : String) :
    (svc (create_virtual_lab_crew d) = Except.ok r →
      run_virtual_experiment svc now d =
        [("status", "success"), ("timestamp", now),
         ("experiment", d), ("results", r)]) ∧
    (svc (create_virtual_lab_crew d) = Except.error e →
      run_virtual_experiment svc now d =
        [("status", "failed"), ("error", e), ("timestamp", now)]) := by
  constructor <;> intro h <;> unfold run_virtual_experiment <;> rw [h]

/-- Witness for the amended C3: both branches at concrete inputs. -/
theorem run_virtual_experiment_record_contents_witness :
    run_virtual_experiment (fun _ => Except.ok "OK")
        "2025-01-01T00:00:00" "demo" =
      [("status", "success"), ("timestamp", "2025-01-01T00:00:00"),
       ("experiment", "demo"), ("results", "OK")] ∧
    run_virtual_experiment (fun _ => Except.error "net down")
        "2025-01-01T00:00:00" "demo" =
      [("status", "failed"), ("error", "net down"),
       ("timestamp", "2025-01-01T00:00:00")] :=
  ⟨(run_virtual_experiment_record_contents (fun _ => Except.ok "OK")
      "2025-01-01T00:00:00" "demo" "OK" "unused").1 rfl,
   (run_virtual_experiment_record_contents (fun _ => Except.error "net down")
      "2025-01-01T00:00:00" "demo" "unused" "net down").2 rfl⟩

/-- C4: for a name that is not a catalog key, `run_experiment` returns
`none`, prints the not-found line and the line listing the five valid
keys, writes no file, and — the right-hand side being independent of
`svc` — never dispatches a run. -/
theorem run_experiment_unknown_name_not_found
    (svc : Crew → Except String String) (now stamp name : String)
    (save_results : Bool)
    (h : name ∉ experiment_library.map Prod.fst) :
    run_experiment svc now stamp name save_results =
      ⟨none,
       ["❌ Experiment \x27" ++ name ++ "\x27 not found!",
        "Available experiments: [\x27drug_screening\x27, \x27protein_purification\x27, \x27pcr_optimization\x27, \x27cell_counting\x27, \x27ph_optimization\x27]"],
       []⟩ := by
  unfold run_experiment
  rw [lookup_none_of_not_mem_keys _ _ h]
  rfl

/-- Witness for C4: the unknown name "nonexistent". -/
theorem run_experiment_unknown_name_not_found_witness :
    run_experiment (fun _ => Except.ok "OK") "2025-01-01T00:00:00"
        "20250101_000000" "nonexistent" true =
      ⟨none,
       ["❌ Experiment \x27nonexistent\x27 not found!",
        "Available experiments: [\x27drug_screening\x27, \x27protein_purification\x27, \x27pcr_optimization\x27, \x27cell_counting\x27, \x27ph_optimization\x27]"],
       []⟩ :=
  run_experiment_unknown_name_not_found _ _ _ _ _ (by decide)

/-- C5: on the catalog path with `save_results` enabled, a results file is
written exactly when the returned record has status "success" (in
particular, no file on failure and no file for an unknown name); the
`__main__` block of virtual_bio_lab.py writes its results file regardless
of the run's status. -/
theorem save_results_file_iff_success
    (svc : Crew → Except String String) (now stamp name : String) :
    ((run_experiment svc now stamp name true).files_written ≠ [] ↔
      ((run_experiment svc now stamp name true).result.bind
          (fun res => res.lookup "status") = some "success")) ∧
    (main_block svc now stamp).2 = ["virtual_experiment_" ++ stamp ++ ".json"] := by
  constructor
  · unfold run_experiment
    cases hlk : experiment_library.lookup name with
    | none => simp
    | some generator =>
      cases hs : svc (create_virtual_lab_crew (generator ())) with
      | ok r => simp [run_virtual_experiment, hs, List.lookup]
      | error e => simp [run_virtual_experiment, hs, List.lookup]
  · rfl

/-- C6: `run_all_experiments` produces exactly one outcome entry per
catalog name, in catalog order, each entry being the (always-present)
result of that name's own run; the equation holds for every service
behavior, so a failing run never aborts the batch. -/
theorem run_all_experiments_sequential_complete
    (svc : Crew → Except String String) (now stamp : String) :
    run_all_experiments svc now stamp =
      [("drug_screening",
        some (run_virtual_experiment svc now (drug_screening_experiment ()))),
       ("protein_purification",
        some (run_virtual_experiment svc now (protein_purification_experiment ()))),
       ("pcr_optimization",
        some (run_virtual_experiment svc now (pcr_optimization_experiment ()))),
       ("cell_counting",
        some (run_virtual_experiment svc now (cell_counting_experiment ()))),
       ("ph_optimization",
        some (run_virtual_experiment svc now (ph_optimization_experiment ())))] :=
  rfl

set_option maxRecDepth 40000 in
/-- C7: the catalog is a fixed map of exactly five entries with the five
source keys in order; every generator returns the same string on every
invocation and that string is non-empty; the "drug_screening" text
contains "HeLa" and "MTT". -/
theorem experiment_library_catalog_properties :
    experiment_library.length = 5 ∧
    experiment_library.map Prod.fst =
      ["drug_screening", "protein_purification", "pcr_optimization",
       "cell_counting", "ph_optimization"] ∧
    (∀ u v : Unit,
      experiment_library.map (fun p => p.2 u) =
        experiment_library.map (fun p => p.2 v)) ∧
    experiment_library.all (fun p => !(p.2 ()).isEmpty) = true ∧
    "HeLa".data <:+: (drug_screening_experiment ()).data ∧
    "MTT".data <:+: (drug_screening_experiment ()).data :=
  ⟨rfl, rfl, fun u v => by cases u; cases v; rfl, by decide, by decide, by decide⟩

/-- C8: the runner never consults the configuration: its result is the same
under any two `LabConfig` values (in particular under any two values of
`MAX_EXPERIMENT_TIME`, which the default configuration sets to 3600). -/
theorem run_virtual_experiment_config_independent
    (c1 c2 : LabConfig) (svc : Crew → Except String String) (now d : String) :
    run_virtual_experiment_under_config c1 svc now d =
      run_virtual_experiment_under_config c2 svc now d ∧
    (labConfig_default "" "").MAX_EXPERIMENT_TIME = 3600 :=
  ⟨rfl, rfl⟩

/-- C9: the failure record's keys are exactly status, error, timestamp in
that order; the success record's keys are exactly status, timestamp,
experiment, results. -/
theorem run_result_key_sets
    (svc : Crew → Except String String) (now d r e : String) :
    (svc (create_virtual_lab_crew d) = Except.error e →
      (run_virtual_experiment svc now d).map Prod.fst =
        ["status", "error", "timestamp"]) ∧
    (svc (create_virtual_lab_crew d) = Except.ok r →
      (run_virtual_experiment svc now d).map Prod.fst =
        ["status", "timestamp", "experiment", "results"]) := by
  constructor <;> intro h <;> unfold run_virtual_experiment <;> rw [h] <;> rfl

/-- Witness for C9: both key sets at concrete inputs. -/
theorem run_result_key_sets_witness :
    (run_virtual_experiment (fun _ => Except.error "boom")
        "2025-01-01T00:00:00" "demo").map Prod.fst =
      ["status", "error", "timestamp"] ∧
    (run_virtual_experiment (fun _ => Except.ok "OK")
        "2025-01-01T00:00:00" "demo").map Prod.fst =
      ["status", "timestamp", "experiment", "results"] :=
  ⟨(run_result_key_sets (fun _ => Except.error "boom")
      "2025-01-01T00:00:00" "demo" "unused" "boom").1 rfl,
   (run_result_key_sets (fun _ => Except.ok "OK")
      "2025-01-01T00:00:00" "demo" "OK" "unused").2 rfl⟩

set_option maxRecDepth 40000 in
/-- C10: `list_experiments` indexes line 1 of each freshly generated
description; for every catalog entry that index is in bounds (the split on
newlines has at least two pieces), so the method never raises. -/
theorem list_experiments_second_line_in_bounds :
    list_experiments_output.map Prod.fst = experiment_library.map Prod.fst ∧
    list_experiments_output.all (fun p => p.2.isSome) = true :=
  ⟨rfl, by decide⟩

end VirtualBioLab
